import Mathlib

/-!
Shallow embedding of `src/main.go` of the HuggingFaceModelDownloader CLI
(package `main`, version 1.4.2): the configuration resolver (`LoadConfig`,
flag binding in `main`), the auth-token resolution chain, the R2 storage
target assembly, the cleanup/download orchestration of the root command's
`RunE`, and the `installBinary` procedure.

External collaborators (`hfd.DownloadModel`, `hfd.CleanupCorruptedFiles`,
the filesystem, the process environment, `godotenv.Load`) are modelled as
oracles passed in as parameters; the control flow around them is translated
from the source.
-/

namespace HFDownloader

/-- The `Config` struct of `src/main.go` (lines 24-49).  Go integers are
modelled as `Int` (they are only compared and counted here). -/
structure Config where
  NumConnections : Int
  RequiresAuth : Bool
  AuthToken : String
  ModelName : String
  DatasetName : String
  Branch : String
  Storage : String
  OneFolderPerFilter : Bool
  SkipSHA : Bool
  MaxRetries : Int
  RetryInterval : Int
  JustDownload : Bool
  SilentMode : Bool
  UseR2 : Bool
  R2BucketName : String
  R2AccountID : String
  R2AccessKey : String
  R2SecretKey : String
  SkipLocal : Bool
  R2Subfolder : String
  HFPrefix : String
  MaxWorkers : Int
deriving Repr, DecidableEq

/-- `DefaultConfig` (lines 52-62): Go zero values for the fields the source
does not list explicitly. -/
def DefaultConfig : Config where
  NumConnections := 5
  RequiresAuth := false
  AuthToken := ""
  ModelName := ""
  DatasetName := ""
  Branch := "main"
  Storage := "./"
  OneFolderPerFilter := false
  SkipSHA := false
  MaxRetries := 3
  RetryInterval := 5
  JustDownload := false
  SilentMode := false
  UseR2 := false
  R2BucketName := ""
  R2AccountID := ""
  R2AccessKey := ""
  R2SecretKey := ""
  SkipLocal := false
  R2Subfolder := "hf_dataset"
  HFPrefix := ""
  MaxWorkers := 16

/-- A parsed configuration file: each JSON key of the `Config` struct may be
present (`some`) or absent (`none`).  `json.Unmarshal` into an existing
struct overwrites exactly the fields present in the document. -/
structure ConfigFile where
  NumConnections : Option Int := none
  RequiresAuth : Option Bool := none
  AuthToken : Option String := none
  ModelName : Option String := none
  DatasetName : Option String := none
  Branch : Option String := none
  Storage : Option String := none
  OneFolderPerFilter : Option Bool := none
  SkipSHA : Option Bool := none
  MaxRetries : Option Int := none
  RetryInterval : Option Int := none
  JustDownload : Option Bool := none
  SilentMode : Option Bool := none
  UseR2 : Option Bool := none
  R2BucketName : Option String := none
  R2AccountID : Option String := none
  R2AccessKey : Option String := none
  R2SecretKey : Option String := none
  SkipLocal : Option Bool := none
  R2Subfolder : Option String := none
  HFPrefix : Option String := none
  MaxWorkers : Option Int := none
deriving Repr, DecidableEq

/-- `json.Unmarshal(file, &config)` over the defaults-initialised struct
(line 76): fields present in the file overwrite, absent fields keep the
value already in the struct. -/
def applyFile (c : Config) (f : ConfigFile) : Config where
  NumConnections := f.NumConnections.getD c.NumConnections
  RequiresAuth := f.RequiresAuth.getD c.RequiresAuth
  AuthToken := f.AuthToken.getD c.AuthToken
  ModelName := f.ModelName.getD c.ModelName
  DatasetName := f.DatasetName.getD c.DatasetName
  Branch := f.Branch.getD c.Branch
  Storage := f.Storage.getD c.Storage
  OneFolderPerFilter := f.OneFolderPerFilter.getD c.OneFolderPerFilter
  SkipSHA := f.SkipSHA.getD c.SkipSHA
  MaxRetries := f.MaxRetries.getD c.MaxRetries
  RetryInterval := f.RetryInterval.getD c.RetryInterval
  JustDownload := f.JustDownload.getD c.JustDownload
  SilentMode := f.SilentMode.getD c.SilentMode
  UseR2 := f.UseR2.getD c.UseR2
  R2BucketName := f.R2BucketName.getD c.R2BucketName
  R2AccountID := f.R2AccountID.getD c.R2AccountID
  R2AccessKey := f.R2AccessKey.getD c.R2AccessKey
  R2SecretKey := f.R2SecretKey.getD c.R2SecretKey
  SkipLocal := f.SkipLocal.getD c.SkipLocal
  R2Subfolder := f.R2Subfolder.getD c.R2Subfolder
  HFPrefix := f.HFPrefix.getD c.HFPrefix
  MaxWorkers := f.MaxWorkers.getD c.MaxWorkers

/-- The process environment, as the names `os.Getenv` is called with in
`src/main.go`.  Go's `os.Getenv` returns `""` for an unset variable, so a
plain `String` per variable is faithful. -/
structure Env where
  hfToken : String := ""
  huggingFaceHubToken : String := ""
  r2AccountID : String := ""
  r2WriteAccessKeyID : String := ""
  r2WriteSecretAccessKey : String := ""
  r2BucketName : String := ""
  hfdownloaderJustDownload : String := ""
deriving Repr, DecidableEq

/-- `LoadConfig` (lines 64-88): defaults as base, then the config file if it
exists (a missing file keeps the defaults), then the
`HFDOWNLOADER_JUST_DOWNLOAD` environment override of `Storage`.
A malformed file is a fatal parse error and is outside this model
(`file` is a parsed document or absent). -/
def LoadConfig (file : Option ConfigFile) (env : Env) : Config :=
  let config := DefaultConfig
  let config := match file with
    | none => config
    | some f => applyFile config f
  if env.hfdownloaderJustDownload = "1" ∨ env.hfdownloaderJustDownload = "true" then
    { config with Storage := "./" }
  else
    config

/-- The CLI flags of the root command (lines 274-310): `some v` when the
flag was passed on the command line, `none` otherwise. -/
structure Flags where
  model : Option String := none
  dataset : Option String := none
  branch : Option String := none
  storage : Option String := none
  concurrent : Option Int := none
  token : Option String := none
  appendFilterFolder : Option Bool := none
  skipSHA : Option Bool := none
  maxRetries : Option Int := none
  retryInterval : Option Int := none
  justDownload : Option Bool := none
  silentMode : Option Bool := none
  install : Option Bool := none
  installPath : Option String := none
  r2 : Option Bool := none
  r2Bucket : Option String := none
  r2Account : Option String := none
  r2AccessKey : Option String := none
  r2SecretKey : Option String := none
  skipLocal : Option Bool := none
  cleanupCorrupted : Option Bool := none
  r2Subfolder : Option String := none
  hfPrefixFlag : Option String := none
deriving Repr, DecidableEq

/-- Flag registration and parsing over the loaded config (lines 274-310).
Cobra's `StringVar`-family binding first assigns the registration default to
the bound variable, then overwrites it when the flag is passed; the net
effect per field is the flag value if passed, else the registration
default.  Lines 274-288 and 309 pass the loaded config value as the
registration default, so those fields survive; lines 302-307 and 310 pass a
hard-coded `""`/`false` default, so those fields are reset at registration
regardless of what the file loaded.  `justDownload`, `install`,
`installPath` and `cleanupCorrupted` bind local variables, not config
fields, so the config fields `JustDownload` etc. are untouched. -/
def applyFlags (c : Config) (fl : Flags) : Config :=
  { c with
    ModelName := fl.model.getD c.ModelName
    DatasetName := fl.dataset.getD c.DatasetName
    Branch := fl.branch.getD c.Branch
    Storage := fl.storage.getD c.Storage
    MaxWorkers := fl.concurrent.getD c.MaxWorkers
    AuthToken := fl.token.getD c.AuthToken
    OneFolderPerFilter := fl.appendFilterFolder.getD c.OneFolderPerFilter
    SkipSHA := fl.skipSHA.getD c.SkipSHA
    MaxRetries := fl.maxRetries.getD c.MaxRetries
    RetryInterval := fl.retryInterval.getD c.RetryInterval
    SilentMode := fl.silentMode.getD c.SilentMode
    UseR2 := fl.r2.getD false
    R2BucketName := fl.r2Bucket.getD ""
    R2AccountID := fl.r2Account.getD ""
    R2AccessKey := fl.r2AccessKey.getD ""
    R2SecretKey := fl.r2SecretKey.getD ""
    SkipLocal := fl.skipLocal.getD false
    R2Subfolder := fl.r2Subfolder.getD c.R2Subfolder
    HFPrefix := fl.hfPrefixFlag.getD "" }

/-- The effective configuration an invocation runs with: defaults, file and
environment merged by `LoadConfig`, then flag registration and parsing. -/
def effectiveConfig (file : Option ConfigFile) (env : Env) (fl : Flags) : Config :=
  applyFlags (LoadConfig file env) fl

/-- The local `justDownload` variable: bound by `-j` with registration
default `config.JustDownload` (line 284). -/
def effJustDownload (file : Option ConfigFile) (env : Env) (fl : Flags) : Bool :=
  fl.justDownload.getD (LoadConfig file env).JustDownload

/-- The auth-token resolution chain (lines 156-164, repeated verbatim at
lines 187-195): keep a non-empty explicit token; otherwise consult
`HF_TOKEN`; otherwise `HUGGING_FACE_HUB_TOKEN`, printing a deprecation
warning when that supplies a non-empty value.  Returns the resolved token
and how many deprecation warnings were printed. -/
def resolveToken (token : String) (env : Env) : String × Nat :=
  if token = "" then
    let fromPrimary := env.hfToken
    if fromPrimary = "" then
      let fromDeprecated := env.huggingFaceHubToken
      (fromDeprecated, if fromDeprecated = "" then 0 else 1)
    else
      (fromPrimary, 0)
  else
    (token, 0)

/-- The `hfd.R2Config` struct assembled at lines 226-233. -/
structure R2Config where
  AccountID : String
  AccessKeyID : String
  AccessKeySecret : String
  BucketName : String
  Region : String
  Subfolder : String
deriving Repr, DecidableEq

/-- Storage-target assembly (lines 200-234), entered only when
`config.UseR2` is set: read the three credential variables from the
environment, `log.Fatal` if any is empty; resolve the bucket name as
explicit config value, else `R2_BUCKET_NAME`, else the account id; resolve
the subfolder as explicit config value, else `"hf_dataset"`; region is
always `"auto"`. -/
def assembleR2 (config : Config) (env : Env) : Except String R2Config :=
  let accountID := env.r2AccountID
  let accessKey := env.r2WriteAccessKeyID
  let secretKey := env.r2WriteSecretAccessKey
  if accountID = "" ∨ accessKey = "" ∨ secretKey = "" then
    Except.error "R2 credentials not found in environment variables"
  else
    let bucketName := config.R2BucketName
    let bucketName := if bucketName = "" then
        let fromEnv := env.r2BucketName
        if fromEnv = "" then accountID else fromEnv
      else bucketName
    let subfolder := config.R2Subfolder
    let subfolder := if subfolder = "" then "hf_dataset" else subfolder
    Except.ok ⟨accountID, accessKey, secretKey, bucketName, "auto", subfolder⟩

/-- Line 238: `prefix := r2cfg.Subfolder + "/"` — the key-match value
passed to the cleanup collaborator, an unconditional append of the path
separator. -/
def subfolderToKeyMatch (subfolder : String) : String :=
  subfolder ++ "/"

/-- Modelled from the spec (section 4.2 / section 8): the normalization the
spec describes, under which a subfolder already ending in a separator is
not given a second one.  Stated only to compare against
`subfolderToKeyMatch`, which is the code's behaviour. -/
def specSubfolderToKeyMatch (subfolder : String) : String :=
  if subfolder.data.getLast? = some '/' then subfolder else subfolder ++ "/"

/-- How one invocation of the root command ends. -/
inductive ExecOutcome where
  /-- The cobra `Args` validator rejected the call (line 139-144); cobra
  returns this error without running `RunE`. -/
  | argsError (msg : String)
  /-- `RunE` returned an error after calling `cmd.Help()` (lines 180-182). -/
  | usageError (msg : String)
  /-- The `--install` branch: `installBinary` then `os.Exit(0)` (lines 165-170). -/
  | installExit
  /-- `log.Fatal` / `log.Fatalf`: immediate process termination (lines 207, 240). -/
  | fatal (msg : String)
  /-- A nil-pointer dereference: `r2cfg.Subfolder` with `r2cfg == nil` (line 238). -/
  | nilPanic
  /-- The cleanup branch completed and `RunE` returned nil (lines 242-243). -/
  | cleanupDone
  /-- A download attempt succeeded and `RunE` returned nil (lines 266-267). -/
  | downloadDone (msg : String)
  /-- All retry attempts failed; `RunE` returned the final error (line 269). -/
  | retriesExhausted (msg : String)
deriving Repr, DecidableEq

/-- The externally visible effects of one invocation: how often each
collaborator was called, the key-match value passed to cleanup, the retry
warnings printed, the sleeps performed, whether help was shown, how many
deprecation warnings were printed, and the outcome. -/
structure Effects where
  downloadCalls : Nat := 0
  cleanupCalls : Nat := 0
  cleanupKey : Option String := none
  retryWarnings : List String := []
  sleeps : Nat := 0
  helpShown : Bool := false
  deprecationMsgs : Nat := 0
  outcome : ExecOutcome
deriving Repr, DecidableEq

/-- The warning printed on a failed attempt (line 262):
`"Warning: attempt %d / %d failed, error: %s"` with the 1-based attempt
number, the retry bound, and the collaborator's error. -/
def attemptWarning (i : Nat) (maxRetries : Int) (e : String) : String :=
  s!"Warning: attempt {i + 1} / {maxRetries} failed, error: {e}"

/-- The completion message printed on success (line 266). -/
def downloadDoneMessage (target : String) : String :=
  s!"Download of {target} completed successfully"

/-- The final aggregate error after exhausting all attempts (line 269). -/
def retriesExhaustedMessage (target : String) (maxRetries : Int) : String :=
  s!"failed to download {target} after {maxRetries} attempts"

/-- The retry loop (lines 246-269): `for i := 0; i < config.MaxRetries; i++`.
`dlErr i` is the download collaborator's result on its `i`-th invocation
(`none` = success).  On failure: print a warning naming attempt `i+1` of
`maxRetries`, sleep `RetryInterval` seconds, continue; on success: print the
completion message and return; when the loop ends: return the aggregate
error.  `fuel` is the number of remaining iterations, `maxRetries - i`;
returns (download calls, warnings printed, sleeps, outcome). -/
def retryLoop (target : String) (maxRetries : Int) (dlErr : Nat → Option String) :
    Nat → Nat → Nat × List String × Nat × ExecOutcome
  | _, 0 => (0, [], 0, .retriesExhausted (retriesExhaustedMessage target maxRetries))
  | i, fuel + 1 =>
    match dlErr i with
    | some e =>
      let rest := retryLoop target maxRetries dlErr (i + 1) fuel
      (rest.1 + 1, attemptWarning i maxRetries e :: rest.2.1,
        rest.2.2.1 + 1, rest.2.2.2)
    | none => (1, [], 0, .downloadDone (downloadDoneMessage target))

/-- Lines 236-269: the cleanup branch, else the retry loop.  In the cleanup
branch the code computes `r2cfg.Subfolder + "/"` before calling the
collaborator; with `r2cfg == nil` that dereference panics, so with
`r2cfg = none` the model records `nilPanic` and no cleanup call.
`cleanupErr` is the cleanup collaborator's result (`none` = success). -/
def runOps (config : Config) (target : String) (cleanup : Bool) (r2cfg : Option R2Config)
    (dlErr : Nat → Option String) (cleanupErr : Option String) (dep : Nat) : Effects :=
  if cleanup then
    match r2cfg with
    | none => { deprecationMsgs := dep, outcome := .nilPanic }
    | some r2 =>
      let key := subfolderToKeyMatch r2.Subfolder
      match cleanupErr with
      | some e =>
        { cleanupCalls := 1, cleanupKey := some key, deprecationMsgs := dep,
          outcome := .fatal s!"Failed to cleanup corrupted files: {e}" }
      | none =>
        { cleanupCalls := 1, cleanupKey := some key, deprecationMsgs := dep,
          outcome := .cleanupDone }
  else
    let r := retryLoop target config.MaxRetries dlErr 0 config.MaxRetries.toNat
    { downloadCalls := r.1, retryWarnings := r.2.1, sleeps := r.2.2.1,
      deprecationMsgs := dep, outcome := r.2.2.2 }

/-- Lines 185-269 once a target is known: `godotenv.Load` (the environment
from here on is `envDot`), the second token-resolution block (lines
187-195, identical to the first), then storage-target assembly (`log.Fatal`
on missing credentials) and `runOps`. -/
def withTarget (config : Config) (target : String) (cleanup : Bool) (envDot : Env)
    (dlErr : Nat → Option String) (cleanupErr : Option String) (dep : Nat) : Effects :=
  let t2 := resolveToken config.AuthToken envDot
  let config := { config with AuthToken := t2.1 }
  let dep := dep + t2.2
  if config.UseR2 then
    match assembleR2 config envDot with
    | .error msg => { deprecationMsgs := dep, outcome := .fatal msg }
    | .ok r2 => runOps config target cleanup (some r2) dlErr cleanupErr dep
  else
    runOps config target cleanup none dlErr cleanupErr dep

/-- Lines 171-183: pick the target.  A non-empty `ModelName` wins; else a
non-empty `DatasetName`; else show help and return the usage error. -/
def checkTarget (config : Config) (cleanup : Bool) (envDot : Env)
    (dlErr : Nat → Option String) (cleanupErr : Option String) (dep : Nat) : Effects :=
  if config.ModelName ≠ "" then
    withTarget config config.ModelName cleanup envDot dlErr cleanupErr dep
  else if config.DatasetName ≠ "" then
    withTarget config config.DatasetName cleanup envDot dlErr cleanupErr dep
  else
    { helpShown := true, deprecationMsgs := dep,
      outcome := .usageError "Error: You must set either modelName or datasetName." }

/-- The body of `RunE` (lines 145-270).  `config` is the effective (post
flag-parse) configuration; `justDownload`, `install` and `cleanup` are the
local flag variables; `args` the positional arguments; `env` the
environment before `godotenv.Load` and `envDot` the environment after it. -/
def runE (config : Config) (justDownload install cleanup : Bool) (args : List String)
    (env envDot : Env) (dlErr : Nat → Option String) (cleanupErr : Option String) : Effects :=
  let config := if justDownload then
      { config with ModelName := args.headD "", Storage := "./" }
    else config
  let t1 := resolveToken config.AuthToken env
  let config := { config with AuthToken := t1.1 }
  if install then
    { deprecationMsgs := t1.2, outcome := .installExit }
  else
    checkTarget config cleanup envDot dlErr cleanupErr t1.2

/-- One invocation of the root command: the `Args` validator (lines
139-144) rejects `-j` with no positional argument before `RunE` runs;
otherwise `RunE`. -/
def execute (config : Config) (justDownload install cleanup : Bool) (args : List String)
    (env envDot : Env) (dlErr : Nat → Option String) (cleanupErr : Option String) : Effects :=
  if justDownload ∧ args.length < 1 then
    { outcome := .argsError "requires a model name argument when using -j" }
  else
    runE config justDownload install cleanup args env envDot dlErr cleanupErr

/-- A filesystem operation's failure, as `installBinary` distinguishes them
via `os.IsPermission`. -/
inductive FsErr where
  | permission
  | other (msg : String)
deriving Repr, DecidableEq

/-- The error string `installBinary` returns for an `FsErr` it propagates. -/
def FsErr.msg : FsErr → String
  | .permission => "permission denied"
  | .other e => e

instance {ε α : Type} [DecidableEq ε] [DecidableEq α] : DecidableEq (Except ε α)
  | .error a, .error b =>
    if h : a = b then .isTrue (by rw [h]) else .isFalse (by simp [h])
  | .error _, .ok _ => .isFalse (by simp)
  | .ok _, .error _ => .isFalse (by simp)
  | .ok a, .ok b =>
    if h : a = b then .isTrue (by rw [h]) else .isFalse (by simp [h])

/-- The world `installBinary` (lines 317-373) runs against: the platform,
the result of `os.Executable`, whether a file already exists at the
destination, and the results of the removal (line 335), the source open
(line 346), the copy via `copyFile` (line 353) and the `sudo` shell
command (line 366).  `none` = the operation succeeds. -/
structure InstallWorld where
  goosWindows : Bool := false
  exePath : Except String String := .ok "/proc/self/exe"
  dstExists : Bool := false
  removeErr : Option FsErr := none
  srcOpenErr : Option FsErr := none
  copyErr : Option FsErr := none
  sudoErr : Option String := none
deriving Repr, DecidableEq

/-- What one run of `installBinary` did: which steps were attempted, whether
the elevated `sudo` command ran, how often the success message was logged,
and the returned error (`none` = nil). -/
structure InstallTrace where
  removeAttempted : Bool
  copyAttempted : Bool
  sudoInvoked : Bool
  successLogs : Nat
  result : Option String
deriving Repr, DecidableEq

/-- Lines 332-343: if the destination exists, try `os.Remove`; a permission
failure sets the elevation flag (`.ok true`), any other failure aborts
(`.error`), success or a missing destination proceeds without the flag. -/
def removeStep (w : InstallWorld) : Except String Bool :=
  if w.dstExists then
    match w.removeErr with
    | none => .ok false
    | some .permission => .ok true
    | some (.other e) => .error e
  else
    .ok false

/-- `installBinary` (lines 317-373): refuse Windows; resolve the
executable; remove an existing destination file (permission failure sets
`needsSudo`, other failures abort); open the source (any failure aborts);
copy (permission failure sets `needsSudo`, other failures abort); if
`needsSudo`, run one elevated `sudo sh -c "rm -f … && cp …"` whose failure
aborts; log success once. -/
def installBinary (w : InstallWorld) : InstallTrace :=
  if w.goosWindows then
    ⟨false, false, false, 0, some "the install command is not supported on Windows"⟩
  else
    match w.exePath with
    | .error e => ⟨false, false, false, 0, some e⟩
    | .ok _ =>
      match removeStep w with
      | .error e => ⟨true, false, false, 0, some e⟩
      | .ok needsSudoRemove =>
        match w.srcOpenErr with
        | some e => ⟨w.dstExists, false, false, 0, some e.msg⟩
        | none =>
          match w.copyErr with
          | some (.other e) => ⟨w.dstExists, true, false, 0, some e⟩
          | copyRes =>
            let needsSudo := needsSudoRemove || copyRes = some .permission
            if needsSudo then
              match w.sudoErr with
              | some e => ⟨w.dstExists, true, true, 0, some e⟩
              | none => ⟨w.dstExists, true, true, 1, none⟩
            else
              ⟨w.dstExists, true, false, 1, none⟩

/-- The retry loop never yields the nil-pointer-panic outcome: that outcome
arises only from the cleanup branch with an absent storage target. -/
theorem retryLoop_ne_nilPanic (target : String) (maxRetries : Int)
    (dlErr : Nat → Option String) (i fuel : Nat) :
    (retryLoop target maxRetries dlErr i fuel).2.2.2 ≠ .nilPanic := by
  induction fuel generalizing i with
  | zero => simp [retryLoop]
  | succ fuel ih =>
    rw [retryLoop]
    cases h : dlErr i with
    | none => simp
    | some e => simpa using ih (i + 1)

/-- C4: auth-token resolution is deterministic with precedence explicit >
`HF_TOKEN` > `HUGGING_FACE_HUB_TOKEN`, and the deprecation notice is
emitted exactly once per resolution, exactly when the deprecated variable
alone supplies the value. -/
theorem C4_token_resolution (token : String) (env : Env) :
    (token ≠ "" → resolveToken token env = (token, 0)) ∧
    (token = "" → env.hfToken ≠ "" → resolveToken token env = (env.hfToken, 0)) ∧
    (token = "" → env.hfToken = "" → env.huggingFaceHubToken ≠ "" →
      resolveToken token env = (env.huggingFaceHubToken, 1)) ∧
    (token = "" → env.hfToken = "" → env.huggingFaceHubToken = "" →
      resolveToken token env = ("", 0)) := by
  refine ⟨fun h => ?_, fun h h1 => ?_, fun h h1 h2 => ?_, fun h h1 h2 => ?_⟩ <;>
    simp [resolveToken, h, *]

/-- C4 witness: the deprecated variable alone supplies the token, and the
notice is emitted exactly once. -/
theorem C4_token_resolution_witness :
    resolveToken "" { huggingFaceHubToken := "hub-tok" } = ("hub-tok", 1) := by
  have h := C4_token_resolution "" { huggingFaceHubToken := "hub-tok" }
  exact h.2.2.1 rfl rfl (by decide)

/-- C5 counterexample: with subfolder `"data/"` (already ending in the
separator), the key-match value the cleanup branch passes is `"data//"`,
not the `"data/"` the claim predicts: the separator is appended
unconditionally, duplicating an existing one. -/
theorem C5_counterexample :
    (runOps DefaultConfig "t" true (some ⟨"a", "k", "s", "b", "auto", "data/"⟩)
        (fun _ => none) none 0).cleanupKey = some "data//" ∧
    specSubfolderToKeyMatch "data/" = "data/" ∧
    ("data//" : String) ≠ "data/" :=
  ⟨rfl, by decide, by decide⟩

/-- C5 amended: in cleanup mode the match prefix is the subfolder with one
path separator appended unconditionally — a value without a trailing
separator gains exactly one, but a value already ending in a separator
gains a duplicate. -/
theorem C5_amended (config : Config) (target : String) (r2 : R2Config)
    (dlErr : Nat → Option String) (cleanupErr : Option String) (dep : Nat) :
    (runOps config target true (some r2) dlErr cleanupErr dep).cleanupKey
      = some (r2.Subfolder ++ "/") ∧
    (subfolderToKeyMatch r2.Subfolder).length = r2.Subfolder.length + 1 := by
  constructor
  · cases cleanupErr <;> rfl
  · have h1 : ("/" : String).length = 1 := rfl
    simp [subfolderToKeyMatch, String.length_append, h1]

/-- C7: with the three credentials present, assembly always succeeds; the
bucket name falls back from the explicit config value to `R2_BUCKET_NAME`
to the account id, and the subfolder from the explicit config value to
`"hf_dataset"`. -/
theorem C7_bucket_fallback (config : Config) (env : Env)
    (h1 : env.r2AccountID ≠ "") (h2 : env.r2WriteAccessKeyID ≠ "")
    (h3 : env.r2WriteSecretAccessKey ≠ "") :
    assembleR2 config env = .ok
      { AccountID := env.r2AccountID
        AccessKeyID := env.r2WriteAccessKeyID
        AccessKeySecret := env.r2WriteSecretAccessKey
        BucketName := if config.R2BucketName ≠ "" then config.R2BucketName
          else if env.r2BucketName ≠ "" then env.r2BucketName else env.r2AccountID
        Region := "auto"
        Subfolder := if config.R2Subfolder ≠ "" then config.R2Subfolder
          else "hf_dataset" } := by
  rw [assembleR2, if_neg (by simp [h1, h2, h3])]
  by_cases hb : config.R2BucketName = "" <;> by_cases he : env.r2BucketName = "" <;>
    by_cases hs : config.R2Subfolder = "" <;>
      simp [hb, he, hs]

/-- C7 witness: no explicit bucket, no bucket environment variable — the
bucket name falls back to the account id, and assembly succeeds. -/
theorem C7_bucket_fallback_witness :
    assembleR2 DefaultConfig
        { r2AccountID := "acct", r2WriteAccessKeyID := "ak",
          r2WriteSecretAccessKey := "sk" }
      = .ok { AccountID := "acct", AccessKeyID := "ak", AccessKeySecret := "sk",
              BucketName := "acct", Region := "auto", Subfolder := "hf_dataset" } := by
  have h := C7_bucket_fallback DefaultConfig
    { r2AccountID := "acct", r2WriteAccessKeyID := "ak", r2WriteSecretAccessKey := "sk" }
    (by decide) (by decide) (by decide)
  simpa using h

/-- C9: on Windows the install procedure fails with the explicit
unsupported-platform error before any filesystem step — no removal, copy or
elevated command is attempted. -/
theorem C9_windows_unsupported (w : InstallWorld) (h : w.goosWindows = true) :
    installBinary w
      = ⟨false, false, false, 0, some "the install command is not supported on Windows"⟩ := by
  rw [installBinary, if_pos h]

/-- C1 counterexample: the claim fails for the `R2BucketName` field.  A
configuration file setting `r2_bucket_name` to `"mybucket"`, with no flag
passed, yields an effective value of `""`, not `"mybucket"`: the
`--r2-bucket` flag is registered with the hard-coded default `""` (line
303), which overwrites the file-loaded value. -/
theorem C1_counterexample :
    ({ R2BucketName := some "mybucket" } : ConfigFile).R2BucketName = some "mybucket" ∧
    (effectiveConfig (some { R2BucketName := some "mybucket" }) {} {}).R2BucketName = "" ∧
    ("" : String) ≠ "mybucket" :=
  ⟨rfl, rfl, by decide⟩

/-- C1 amended: flag overrides file overrides default for every field whose
flag is registered with the loaded config value as its default (model,
dataset, branch, storage, concurrent/max-workers, token,
append-filter-folder, skip-SHA, max-retries, retry-interval, silent-mode,
r2-subfolder) and for the flagless fields (num-connections, requires-auth,
just-download); but the fields bound at lines 302-307 and 310 (use-R2,
R2 bucket name, R2 account id, R2 access key, R2 secret key, skip-local,
HF prefix) are registered with hard-coded empty/false defaults, so their
file-loaded values are discarded and only a passed flag can set them. -/
theorem C1_amended (f : ConfigFile) (fl : Flags) (env : Env)
    (h1 : env.hfdownloaderJustDownload ≠ "1")
    (h2 : env.hfdownloaderJustDownload ≠ "true") :
    effectiveConfig (some f) env fl =
      { NumConnections := f.NumConnections.getD 5
        RequiresAuth := f.RequiresAuth.getD false
        AuthToken := fl.token.getD (f.AuthToken.getD "")
        ModelName := fl.model.getD (f.ModelName.getD "")
        DatasetName := fl.dataset.getD (f.DatasetName.getD "")
        Branch := fl.branch.getD (f.Branch.getD "main")
        Storage := fl.storage.getD (f.Storage.getD "./")
        OneFolderPerFilter := fl.appendFilterFolder.getD (f.OneFolderPerFilter.getD false)
        SkipSHA := fl.skipSHA.getD (f.SkipSHA.getD false)
        MaxRetries := fl.maxRetries.getD (f.MaxRetries.getD 3)
        RetryInterval := fl.retryInterval.getD (f.RetryInterval.getD 5)
        JustDownload := f.JustDownload.getD false
        SilentMode := fl.silentMode.getD (f.SilentMode.getD false)
        UseR2 := fl.r2.getD false
        R2BucketName := fl.r2Bucket.getD ""
        R2AccountID := fl.r2Account.getD ""
        R2AccessKey := fl.r2AccessKey.getD ""
        R2SecretKey := fl.r2SecretKey.getD ""
        SkipLocal := fl.skipLocal.getD false
        R2Subfolder := fl.r2Subfolder.getD (f.R2Subfolder.getD "hf_dataset")
        HFPrefix := fl.hfPrefixFlag.getD ""
        MaxWorkers := fl.concurrent.getD (f.MaxWorkers.getD 16) } := by
  have hne : ¬(env.hfdownloaderJustDownload = "1" ∨ env.hfdownloaderJustDownload = "true") := by
    simp [h1, h2]
  rw [effectiveConfig, LoadConfig]
  simp only [hne, if_false]
  rfl

/-- C1 amended witness: a file-set branch survives without a flag, a passed
storage flag wins, and the file-set bucket name is discarded. -/
theorem C1_amended_witness :
    effectiveConfig (some { Branch := some "dev", R2BucketName := some "mybucket" }) {}
        { storage := some "/data" } =
      { DefaultConfig with Branch := "dev", Storage := "/data" } := by
  have h := C1_amended { Branch := some "dev", R2BucketName := some "mybucket" }
    { storage := some "/data" } {} (by decide) (by decide)
  rw [h]
  rfl

/-- Helper: the retry loop with three allowed attempts when the first two
calls fail and the third succeeds. -/
theorem retryLoop_two_failures (target e0 e1 : String) (dlErr : Nat → Option String)
    (h0 : dlErr 0 = some e0) (h1 : dlErr 1 = some e1) (h2 : dlErr 2 = none) :
    retryLoop target 3 dlErr 0 3 =
      (3, [attemptWarning 0 3 e0, attemptWarning 1 3 e1], 2,
        .downloadDone (downloadDoneMessage target)) := by
  simp [retryLoop, h0, h1, h2]

/-- Helper: the retry loop with three allowed attempts when every call
fails. -/
theorem retryLoop_all_failures (target : String) (dlErr : Nat → Option String)
    (h : ∀ i, i < 3 → dlErr i ≠ none) :
    (retryLoop target 3 dlErr 0 3).1 = 3 ∧
    (retryLoop target 3 dlErr 0 3).2.1.length = 3 ∧
    (retryLoop target 3 dlErr 0 3).2.2.1 = 3 ∧
    (retryLoop target 3 dlErr 0 3).2.2.2
      = .retriesExhausted (retriesExhaustedMessage target 3) := by
  obtain ⟨e0, h0⟩ := Option.ne_none_iff_exists'.mp (h 0 (by omega))
  obtain ⟨e1, h1⟩ := Option.ne_none_iff_exists'.mp (h 1 (by omega))
  obtain ⟨e2, h2⟩ := Option.ne_none_iff_exists'.mp (h 2 (by omega))
  simp [retryLoop, h0, h1, h2]

/-- Helper: in plain download mode (no just-download, no install, no
cleanup, no R2) the invocation's observable retry behaviour is exactly the
retry loop's, run on the model name with the configured bound. -/
theorem execute_download_effects (config : Config) (args : List String) (env envDot : Env)
    (dlErr : Nat → Option String) (cleanupErr : Option String)
    (hm : config.ModelName ≠ "") (hu : config.UseR2 = false) :
    (execute config false false false args env envDot dlErr cleanupErr).downloadCalls
        = (retryLoop config.ModelName config.MaxRetries dlErr 0 config.MaxRetries.toNat).1 ∧
    (execute config false false false args env envDot dlErr cleanupErr).retryWarnings
        = (retryLoop config.ModelName config.MaxRetries dlErr 0 config.MaxRetries.toNat).2.1 ∧
    (execute config false false false args env envDot dlErr cleanupErr).sleeps
        = (retryLoop config.ModelName config.MaxRetries dlErr 0 config.MaxRetries.toNat).2.2.1 ∧
    (execute config false false false args env envDot dlErr cleanupErr).outcome
        = (retryLoop config.ModelName config.MaxRetries dlErr 0 config.MaxRetries.toNat).2.2.2 := by
  simp [execute, runE, checkTarget, withTarget, runOps, hm, hu]

/-- C2: with `MaxRetries = 3` in download mode, two failures followed by a
success give exactly three collaborator calls, exactly the two warnings
(naming attempt number and total), two sleeps, and the success outcome
naming the target; three failures give exactly three calls, three
warnings, and the final error naming the target and the attempt count. -/
theorem C2_retry_orchestration (config : Config) (args : List String) (env envDot : Env)
    (dlErr : Nat → Option String) (cleanupErr : Option String)
    (hm : config.ModelName ≠ "") (hr : config.MaxRetries = 3) (hu : config.UseR2 = false) :
    (∀ e0 e1, dlErr 0 = some e0 → dlErr 1 = some e1 → dlErr 2 = none →
      (execute config false false false args env envDot dlErr cleanupErr).downloadCalls = 3 ∧
      (execute config false false false args env envDot dlErr cleanupErr).retryWarnings
        = [attemptWarning 0 3 e0, attemptWarning 1 3 e1] ∧
      (execute config false false false args env envDot dlErr cleanupErr).sleeps = 2 ∧
      (execute config false false false args env envDot dlErr cleanupErr).outcome
        = .downloadDone (downloadDoneMessage config.ModelName)) ∧
    ((∀ i, i < 3 → dlErr i ≠ none) →
      (execute config false false false args env envDot dlErr cleanupErr).downloadCalls = 3 ∧
      (execute config false false false args env envDot dlErr cleanupErr).retryWarnings.length
        = 3 ∧
      (execute config false false false args env envDot dlErr cleanupErr).sleeps = 3 ∧
      (execute config false false false args env envDot dlErr cleanupErr).outcome
        = .retriesExhausted (retriesExhaustedMessage config.ModelName 3)) := by
  obtain ⟨hc, hw, hs, ho⟩ := execute_download_effects config args env envDot dlErr cleanupErr hm hu
  rw [hr] at hc hw hs ho
  constructor
  · intro e0 e1 h0 h1 h2
    have hl := retryLoop_two_failures config.ModelName e0 e1 dlErr h0 h1 h2
    rw [hc, hw, hs, ho]
    rw [show Int.toNat 3 = 3 from rfl, hl]
    exact ⟨rfl, rfl, rfl, rfl⟩
  · intro hfail
    have hl := retryLoop_all_failures config.ModelName dlErr hfail
    rw [hc, hw, hs, ho, show Int.toNat 3 = 3 from rfl]
    exact ⟨hl.1, by rw [hl.2.1], hl.2.2.1, hl.2.2.2⟩

/-- C2 witness: a concrete configuration and a download oracle that fails
twice then succeeds. -/
theorem C2_retry_orchestration_witness :
    (execute { DefaultConfig with ModelName := "org/m" } false false false [] {} {}
        (fun i => if i < 2 then some "boom" else none) none).downloadCalls = 3 ∧
    (execute { DefaultConfig with ModelName := "org/m" } false false false [] {} {}
        (fun i => if i < 2 then some "boom" else none) none).retryWarnings
      = ["Warning: attempt 1 / 3 failed, error: boom",
         "Warning: attempt 2 / 3 failed, error: boom"] ∧
    (execute { DefaultConfig with ModelName := "org/m" } false false false [] {} {}
        (fun i => if i < 2 then some "boom" else none) none).sleeps = 2 ∧
    (execute { DefaultConfig with ModelName := "org/m" } false false false [] {} {}
        (fun i => if i < 2 then some "boom" else none) none).outcome
      = .downloadDone "Download of org/m completed successfully" := by
  have h := (C2_retry_orchestration { DefaultConfig with ModelName := "org/m" } [] {} {}
    (fun i => if i < 2 then some "boom" else none) none (by decide) rfl rfl).1
    "boom" "boom" rfl rfl rfl
  exact ⟨h.1, h.2.1.trans (by decide), h.2.2.1, h.2.2.2.trans (by decide)⟩

/-- C3: when, after resolution (including the just-download override of the
model name), both the model name and the dataset name are empty, the
invocation ends in the usage error with help shown, and neither the
download nor the cleanup collaborator is ever invoked. -/
theorem C3_no_target_usage_error (config : Config) (justDownload cleanup : Bool)
    (args : List String) (env envDot : Env) (dlErr : Nat → Option String)
    (cleanupErr : Option String)
    (hargs : ¬(justDownload = true ∧ args = []))
    (hm : (if justDownload then args.headD "" else config.ModelName) = "")
    (hd : config.DatasetName = "") :
    (execute config justDownload false cleanup args env envDot dlErr cleanupErr).outcome
        = .usageError "Error: You must set either modelName or datasetName." ∧
    (execute config justDownload false cleanup args env envDot dlErr cleanupErr).helpShown
        = true ∧
    (execute config justDownload false cleanup args env envDot dlErr cleanupErr).downloadCalls
        = 0 ∧
    (execute config justDownload false cleanup args env envDot dlErr cleanupErr).cleanupCalls
        = 0 := by
  cases justDownload with
  | false =>
    have hm2 : config.ModelName = "" := by simpa using hm
    simp [execute, runE, checkTarget, hm2, hd]
  | true =>
    cases args with
    | nil => exact absurd ⟨rfl, rfl⟩ hargs
    | cons a l =>
      have hm2 : a = "" := by simpa using hm
      subst hm2
      simp [execute, runE, checkTarget, hd]

/-- C3 witness: empty model and dataset names, no just-download mode. -/
theorem C3_no_target_usage_error_witness :
    (execute DefaultConfig false false false [] {} {} (fun _ => none) none).outcome
        = .usageError "Error: You must set either modelName or datasetName." ∧
    (execute DefaultConfig false false false [] {} {} (fun _ => none) none).helpShown
        = true ∧
    (execute DefaultConfig false false false [] {} {} (fun _ => none) none).downloadCalls
        = 0 ∧
    (execute DefaultConfig false false false [] {} {} (fun _ => none) none).cleanupCalls
        = 0 :=
  C3_no_target_usage_error DefaultConfig false false [] {} {} (fun _ => none) none
    (by simp) (by decide) (by decide)

/-- C6: with the remote-storage toggle on and any of the three credential
variables empty, neither the download nor the cleanup collaborator is ever
invoked, and any run that reaches storage-target assembly (not the install
branch, past the argument validator, with a non-empty target) terminates
with the credentials fatal error. -/
theorem C6_missing_credentials_fatal (config : Config) (justDownload install cleanup : Bool)
    (args : List String) (env envDot : Env) (dlErr : Nat → Option String)
    (cleanupErr : Option String)
    (hr2 : config.UseR2 = true)
    (hmiss : envDot.r2AccountID = "" ∨ envDot.r2WriteAccessKeyID = "" ∨
      envDot.r2WriteSecretAccessKey = "") :
    (execute config justDownload install cleanup args env envDot dlErr cleanupErr).downloadCalls
        = 0 ∧
    (execute config justDownload install cleanup args env envDot dlErr cleanupErr).cleanupCalls
        = 0 ∧
    (install = false → ¬(justDownload = true ∧ args = []) →
      ((if justDownload then args.headD "" else config.ModelName) ≠ "" ∨
        config.DatasetName ≠ "") →
      (execute config justDownload install cleanup args env envDot dlErr cleanupErr).outcome
        = .fatal "R2 credentials not found in environment variables") := by
  have hass : ∀ c : Config, assembleR2 c envDot
      = .error "R2 credentials not found in environment variables" := by
    intro c
    rcases hmiss with h | h | h <;> simp [assembleR2, h]
  have hwt : ∀ (c : Config) (target : String) (cl : Bool) (dep : Nat), c.UseR2 = true →
      withTarget c target cl envDot dlErr cleanupErr dep =
        { deprecationMsgs := dep + (resolveToken c.AuthToken envDot).2,
          outcome := .fatal "R2 credentials not found in environment variables" } := by
    intro c target cl dep hc
    simp [withTarget, hc, hass]
  have hct1 : ∀ (c : Config) (cl : Bool) (dep : Nat), c.UseR2 = true →
      (checkTarget c cl envDot dlErr cleanupErr dep).downloadCalls = 0 ∧
      (checkTarget c cl envDot dlErr cleanupErr dep).cleanupCalls = 0 := by
    intro c cl dep hc
    by_cases hm : c.ModelName = "" <;> by_cases hd : c.DatasetName = "" <;>
      simp [checkTarget, hm, hd, hwt _ _ _ _ hc]
  have hct2 : ∀ (c : Config) (cl : Bool) (dep : Nat), c.UseR2 = true →
      (c.ModelName ≠ "" ∨ c.DatasetName ≠ "") →
      (checkTarget c cl envDot dlErr cleanupErr dep).outcome
        = .fatal "R2 credentials not found in environment variables" := by
    intro c cl dep hc htg
    by_cases hm : c.ModelName = "" <;> by_cases hd : c.DatasetName = "" <;>
      simp [checkTarget, hm, hd, hwt _ _ _ _ hc]
    exact absurd htg (by simp [hm, hd])
  by_cases hcond : justDownload = true ∧ args.length < 1
  · have hnil : args = [] := by
      cases args with
      | nil => rfl
      | cons a l => exact absurd hcond.2 (by simp)
    rw [execute, if_pos hcond]
    exact ⟨rfl, rfl, fun _ habs _ => absurd ⟨hcond.1, hnil⟩ habs⟩
  · rw [execute, if_neg hcond]
    cases install with
    | true =>
      refine ⟨?_, ?_, fun h => absurd h (by simp)⟩ <;> cases justDownload <;> simp [runE]
    | false =>
      cases justDownload with
      | false =>
        refine ⟨?_, ?_, fun _ _ htg => ?_⟩
        · simp only [runE]
          simp
          exact (hct1 _ _ _ (by exact hr2)).1
        · simp only [runE]
          simp
          exact (hct1 _ _ _ (by exact hr2)).2
        · simp only [runE]
          simp
          exact hct2 _ _ _ (by exact hr2) (by simpa using htg)
      | true =>
        refine ⟨?_, ?_, fun _ _ htg => ?_⟩
        · simp only [runE]
          simp
          exact (hct1 _ _ _ (by exact hr2)).1
        · simp only [runE]
          simp
          exact (hct1 _ _ _ (by exact hr2)).2
        · simp only [runE]
          simp
          exact hct2 _ _ _ (by exact hr2) (by simpa using htg)

/-- C6 witness: cleanup requested, R2 on, all credentials empty — the run
is fatal with no download and no cleanup call. -/
theorem C6_missing_credentials_fatal_witness :
    (execute { DefaultConfig with ModelName := "org/m", UseR2 := true } false false true []
        {} {} (fun _ => none) none).downloadCalls = 0 ∧
    (execute { DefaultConfig with ModelName := "org/m", UseR2 := true } false false true []
        {} {} (fun _ => none) none).cleanupCalls = 0 ∧
    (execute { DefaultConfig with ModelName := "org/m", UseR2 := true } false false true []
        {} {} (fun _ => none) none).outcome
      = .fatal "R2 credentials not found in environment variables" := by
  have h := C6_missing_credentials_fatal { DefaultConfig with ModelName := "org/m", UseR2 := true }
    false false true [] {} {} (fun _ => none) none rfl (Or.inl rfl)
  exact ⟨h.1, h.2.1, h.2.2 rfl (by simp) (by left; decide)⟩

/-- C8: the unprivileged remove-and-copy path always comes first; the
elevated command runs only when the removal or the copy failed with a
permission error; a run whose copy succeeds with no permission failure
never elevates; and a non-permission failure (of the removal or of the
copy) aborts without elevation and without a success log. -/
theorem C8_elevation_policy (w : InstallWorld) (hwin : w.goosWindows = false) :
    ((installBinary w).sudoInvoked = true →
      (w.dstExists = true ∧ w.removeErr = some .permission) ∨
        w.copyErr = some .permission) ∧
    ((installBinary w).sudoInvoked = true → (installBinary w).copyAttempted = true) ∧
    (w.copyErr = none → ¬(w.dstExists = true ∧ w.removeErr = some .permission) →
      (installBinary w).sudoInvoked = false) ∧
    (∀ e, w.copyErr = some (.other e) →
      (installBinary w).sudoInvoked = false ∧ (installBinary w).successLogs = 0 ∧
        (installBinary w).result.isSome = true) ∧
    (∀ e p, w.exePath = .ok p → w.dstExists = true → w.removeErr = some (.other e) →
      installBinary w = ⟨true, false, false, 0, some e⟩) ∧
    (∀ p, w.exePath = .ok p → (w.dstExists = true → w.removeErr = none) →
      w.srcOpenErr = none → w.copyErr = none →
      installBinary w = ⟨w.dstExists, true, false, 1, none⟩) := by
  obtain ⟨win, exe, dst, rm, src, cp, sd⟩ := w
  subst hwin
  refine ⟨?_, ?_, ?_, ?_, ?_, ?_⟩ <;>
    cases exe <;> cases dst <;>
      rcases rm with _ | ⟨_ | e⟩ <;> rcases src with _ | ⟨_ | e2⟩ <;>
        rcases cp with _ | ⟨_ | e3⟩ <;> cases sd <;>
          simp_all [installBinary, removeStep]

/-- C8 witness: a fresh destination, a copy that succeeds with no
permission error — the elevated path is never invoked and success is
logged exactly once. -/
theorem C8_elevation_policy_witness :
    installBinary {} = ⟨false, true, false, 1, none⟩ := by
  have h := C8_elevation_policy {} rfl
  exact h.2.2.2.2.2 "/proc/self/exe" rfl (by intro h; exact absurd h (by decide)) rfl rfl

/-- C10: the cleanup branch dereferences the storage target's subfolder
unconditionally, so with cleanup selected and the remote-storage toggle
off, a run that reaches the branch hits the nil dereference; with the
toggle on, the nil dereference is unreachable whatever else the
invocation does. -/
theorem C10_cleanup_nil_unsafety (config : Config) (justDownload install : Bool)
    (args : List String) (env envDot : Env) (dlErr : Nat → Option String)
    (cleanupErr : Option String) :
    (config.UseR2 = false → install = false → ¬(justDownload = true ∧ args = []) →
      ((if justDownload then args.headD "" else config.ModelName) ≠ "" ∨
        config.DatasetName ≠ "") →
      (execute config justDownload install true args env envDot dlErr cleanupErr).outcome
        = .nilPanic) ∧
    (∀ cleanup : Bool, config.UseR2 = true →
      (execute config justDownload install cleanup args env envDot dlErr cleanupErr).outcome
        ≠ .nilPanic) := by
  have hwtA : ∀ (c : Config) (target : String) (dep : Nat), c.UseR2 = false →
      (withTarget c target true envDot dlErr cleanupErr dep).outcome = .nilPanic := by
    intro c target dep hc
    simp [withTarget, runOps, hc]
  have hctA : ∀ (c : Config) (dep : Nat), c.UseR2 = false →
      (c.ModelName ≠ "" ∨ c.DatasetName ≠ "") →
      (checkTarget c true envDot dlErr cleanupErr dep).outcome = .nilPanic := by
    intro c dep hc htg
    by_cases hm : c.ModelName = "" <;> by_cases hd : c.DatasetName = "" <;>
      simp [checkTarget, hm, hd, hwtA _ _ _ hc]
    exact absurd htg (by simp [hm, hd])
  have hroB : ∀ (c : Config) (target : String) (cl : Bool) (r2 : R2Config) (dep : Nat),
      (runOps c target cl (some r2) dlErr cleanupErr dep).outcome ≠ .nilPanic := by
    intro c target cl r2 dep
    cases cl with
    | false =>
      simp only [runOps, Bool.false_eq_true, if_false]
      exact retryLoop_ne_nilPanic _ _ _ _ _
    | true => cases cleanupErr <;> simp [runOps]
  have hwtB : ∀ (c : Config) (target : String) (cl : Bool) (dep : Nat), c.UseR2 = true →
      (withTarget c target cl envDot dlErr cleanupErr dep).outcome ≠ .nilPanic := by
    intro c target cl dep hc
    simp only [withTarget]
    rw [if_pos (show ({ c with AuthToken := (resolveToken c.AuthToken envDot).1 } :
      Config).UseR2 = true from hc)]
    cases assembleR2 { c with AuthToken := (resolveToken c.AuthToken envDot).1 } envDot with
    | error msg => simp
    | ok r2 => exact hroB _ _ _ _ _
  have hctB : ∀ (c : Config) (cl : Bool) (dep : Nat), c.UseR2 = true →
      (checkTarget c cl envDot dlErr cleanupErr dep).outcome ≠ .nilPanic := by
    intro c cl dep hc
    by_cases hm : c.ModelName = "" <;> by_cases hd : c.DatasetName = "" <;>
      simp [checkTarget, hm, hd] <;>
        exact hwtB _ _ _ _ hc
  constructor
  · intro hc hinst hargs htg
    subst hinst
    have hcond : ¬(justDownload = true ∧ args.length < 1) := by
      rintro ⟨hj, hl⟩
      refine hargs ⟨hj, ?_⟩
      cases args with
      | nil => rfl
      | cons a l => simp at hl
    rw [execute, if_neg hcond]
    cases justDownload with
    | false =>
      simp only [runE]
      simp
      exact hctA _ _ (by exact hc) (by simpa using htg)
    | true =>
      simp only [runE]
      simp
      exact hctA _ _ (by exact hc) (by simpa using htg)
  · intro cleanup hc
    by_cases hcond : justDownload = true ∧ args.length < 1
    · rw [execute, if_pos hcond]
      simp
    · rw [execute, if_neg hcond]
      cases install with
      | true => cases justDownload <;> simp [runE]
      | false =>
        cases justDownload with
        | false =>
          simp only [runE]
          simp
          exact hctB _ _ _ (by exact hc)
        | true =>
          simp only [runE]
          simp
          exact hctB _ _ _ (by exact hc)

/-- C10 witness: cleanup selected, remote storage off, a valid model name —
the run ends in the nil dereference. -/
theorem C10_cleanup_nil_unsafety_witness :
    (execute { DefaultConfig with ModelName := "org/m" } false false true [] {} {}
        (fun _ => none) none).outcome = .nilPanic := by
  have h := (C10_cleanup_nil_unsafety { DefaultConfig with ModelName := "org/m" }
    false false [] {} {} (fun _ => none) none).1 rfl rfl (by simp) (by left; decide)
  exact h

/-- C9 witness. -/
theorem C9_windows_unsupported_witness :
    installBinary { goosWindows := true }
      = ⟨false, false, false, 0, some "the install command is not supported on Windows"⟩ :=
  C9_windows_unsupported { goosWindows := true } rfl

end HFDownloader
